import Mathlib

/-!
Verification of the streak-computation engine of the ai-future-diary backend
(src/diary.py).  The engine is a pure computation over a user's diary entries:

* `_find_all_seven_day_streaks` scans the sorted valid entries for runs of
  seven calendar-consecutive dates and records a window for each;
* `_calculate_current_streak_with_resets` counts the active streak among the
  valid entries dated after the most recently completed window;
* the `check_streak` route handler composes the two and derives
  `needed_for_seven`, `has_seven_day_streak` and related fields.

Modelling conventions (shallow embedding):

* A calendar date (the Python `YYYY-MM-DD` date string) is modelled as an
  integer day number; `d + 1` is the next calendar day.  On well-formed
  ISO date strings of this shape, lexicographic string comparison (used by
  Python's `sorted(key=lambda x: x.date)`) coincides with the numeric order
  of day numbers, so sorting by the integer is faithful.
* Python's `sorted` is a stable sort; it is modelled by a stable insertion
  sort.  (Per the data model a user has at most one entry per date, so ties
  on the sort key cannot arise in practice.)
* The validity test `e.actualText and e.actualText.strip()` is truthy
  exactly when `actualText` is present and contains a non-whitespace
  character; it is modelled by `Option.any` over the string's characters.
* `datetime.now().date()` is modelled by an explicit `today` parameter.
* For the error-handling behaviour a second, raw embedding is given at the
  end of the definitions, in which the stored date field carries the result
  of `datetime.strptime`: `some d` for a string parsing to day number `d`,
  `none` for a string that does not parse, and every function runs in
  `Except String` so that a failed parse aborts the computation like the
  raised `ValueError` does.
-/

namespace Diary

/-- `DiaryEntryResponse`, restricted to the fields the streak engine reads:
the entry's date (day number of its `YYYY-MM-DD` string) and the optional
`actualText`. -/
structure DiaryEntryResponse where
  date : Int
  actualText : Option String
deriving DecidableEq

/-- The validity test applied throughout `diary.py`:
`e.actualText and e.actualText.strip()` is truthy iff `actualText` is present
and has a non-whitespace character. -/
def isValidEntry (e : DiaryEntryResponse) : Bool :=
  match e.actualText with
  | none => false
  | some s => s.data.any (fun c => !c.isWhitespace)

/-- The streak-window dictionary built by `_find_all_seven_day_streaks`:
`{"start_date": dates[0], "end_date": dates[6], "dates": dates,
"completed_at": dates[6]}`, dates as day numbers. -/
structure StreakWindow where
  start_date : Int
  end_date : Int
  dates : List Int
  completed_at : Int
deriving DecidableEq

/-- Stable insertion into an ascending-by-date list: the new element goes in
front of the first element whose date is `≥` its own, so an element inserted
from the left stays before equal-dated elements that came later. -/
def insertByDateAsc (e : DiaryEntryResponse) : List DiaryEntryResponse → List DiaryEntryResponse
  | [] => [e]
  | x :: xs => if e.date ≤ x.date then e :: x :: xs else x :: insertByDateAsc e xs

/-- `sorted(valid_entries, key=lambda x: x.date)`: stable ascending sort. -/
def sortByDateAsc : List DiaryEntryResponse → List DiaryEntryResponse
  | [] => []
  | x :: xs => insertByDateAsc x (sortByDateAsc xs)

/-- Stable insertion into a descending-by-date list: the new element goes in
front of the first element whose date is `≤` its own. -/
def insertByDateDesc (e : DiaryEntryResponse) : List DiaryEntryResponse → List DiaryEntryResponse
  | [] => [e]
  | x :: xs => if x.date ≤ e.date then e :: x :: xs else x :: insertByDateDesc e xs

/-- `sorted(valid_entries, key=lambda x: x.date, reverse=True)`: stable
descending sort. -/
def sortByDateDesc : List DiaryEntryResponse → List DiaryEntryResponse
  | [] => []
  | x :: xs => insertByDateDesc x (sortByDateDesc xs)

/-- The inner loop of `_find_all_seven_day_streaks`, stripped of the
length-7 break (applied by `.take 7` at the call site): starting from `prev`,
keep taking entries while each next entry's date is exactly one day after the
previous one, and stop at the first gap. -/
def takeChain (prev : DiaryEntryResponse) : List DiaryEntryResponse → List DiaryEntryResponse
  | [] => []
  | next :: rest =>
    if next.date - prev.date = 1 then next :: takeChain next rest else []

/-- `streak_info` construction: `{"start_date": ds[0], "end_date": ds[6],
"dates": ds, "completed_at": ds[6]}` (called only with `ds.length = 7`). -/
def mkWindow (ds : List Int) : StreakWindow :=
  { start_date := ds.headD 0
  , end_date := ds.getD 6 0
  , dates := ds
  , completed_at := ds.getD 6 0 }

/-- The duplicate check of `_find_all_seven_day_streaks`: the window is
appended unless a window with the same `start_date` was already recorded. -/
def pushWindow (acc : List StreakWindow) (w : StreakWindow) : List StreakWindow :=
  if acc.any (fun ex => ex.start_date == w.start_date) then acc else acc ++ [w]

/-- The outer loop `for start_idx in range(len(valid_entries) - 6)` of
`_find_all_seven_day_streaks`: each list position with at least 7 entries
remaining is tried as a window start; the candidate run `consecutive_days` is
the consecutive chain from that entry cut at 7 entries (the loop breaks once
`len(consecutive_days) >= 7`); a run reaching 7 becomes a window subject to
the duplicate check; scanning then continues from the NEXT index (the cursor
advances by 1, not by 7). -/
def scanStarts (acc : List StreakWindow) : List DiaryEntryResponse → List StreakWindow
  | [] => acc
  | e :: rest =>
    if rest.length < 6 then acc
    else
      scanStarts
        (if 7 ≤ ((e :: takeChain e rest).take 7).length then
          pushWindow acc (mkWindow (((e :: takeChain e rest).take 7).map (fun x => x.date)))
        else acc)
        rest

/-- `_find_all_seven_day_streaks(entries, user_registration_date)`.  The
registration-date floor is commented out in the source (hackathon mode), so
`user_registration_date` is computed but never used. -/
def find_all_seven_day_streaks (entries : List DiaryEntryResponse)
    (user_registration_date : Int) : List StreakWindow :=
  if entries = [] then []
  else
    let valid_entries := entries.filter isValidEntry
    if valid_entries = [] then []
    else
      let sortedEntries := sortByDateAsc valid_entries
      if sortedEntries.length < 7 then []
      else scanStarts [] sortedEntries

/-- `max(completed_streaks, key=lambda x: x["completed_at"])`: Python's `max`
keeps the current best and replaces it only on a strictly larger key, so the
first maximal element wins. -/
def maxByCompletedAt (w : StreakWindow) (ws : List StreakWindow) : StreakWindow :=
  ws.foldl (fun best x => if best.completed_at < x.completed_at then x else best) w

/-- `last_completed_date` in `_calculate_current_streak_with_resets`: the
`completed_at` of the most recent completed window, or `none` when no window
is completed. -/
def lastCompletedDate (completed_streaks : List StreakWindow) : Option Int :=
  match completed_streaks with
  | [] => none
  | w :: ws => some (maxByCompletedAt w ws).completed_at

/-- `current_entries`: the valid entries sorted newest-first, kept only when
dated strictly after `last_completed_date` (all of them when no window is
completed). -/
def currentEntriesOf (entries : List DiaryEntryResponse)
    (completed_streaks : List StreakWindow) : List DiaryEntryResponse :=
  (sortByDateDesc (entries.filter isValidEntry)).filter (fun e =>
    match lastCompletedDate completed_streaks with
    | none => true
    | some d => decide (d < e.date))

/-- The counting loop of `_calculate_current_streak_with_resets`: walk the
remaining entries newest-first, adding one for each entry dated exactly one
day before the previously counted date, and stop at the first gap. -/
def countConsecutive (prev : Int) : List DiaryEntryResponse → Nat
  | [] => 0
  | e :: rest =>
    if prev - e.date = 1 then countConsecutive e.date rest + 1 else 0

/-- `_calculate_current_streak_with_resets(entries, completed_streaks)` with
`datetime.now().date()` passed in as `today`. -/
def calculate_current_streak_with_resets (entries : List DiaryEntryResponse)
    (completed_streaks : List StreakWindow) (today : Int) : Nat :=
  if entries = [] then 0
  else if entries.filter isValidEntry = [] then 0
  else
    match currentEntriesOf entries completed_streaks with
    | [] => 0
    | latest :: rest =>
      if 1 < today - latest.date then 0
      else 1 + countConsecutive latest.date rest

/-- The fields of the `check_streak` route response that the engine computes
(the debug block and `registration_date` echo are omitted). -/
structure StreakState where
  has_seven_day_streak : Bool
  completed_streaks_count : Nat
  completed_streaks : List StreakWindow
  latest_completed_streak : Option StreakWindow
  current_streak : Nat
  needed_for_seven : Int
deriving DecidableEq

/-- The pure core of the `check_streak` route handler: find the completed
windows, compute the current streak from them, and assemble the response. -/
def check_streak (entries : List DiaryEntryResponse)
    (user_registration_date : Int) (today : Int) : StreakState :=
  let completed_streaks := find_all_seven_day_streaks entries user_registration_date
  let current_streak := calculate_current_streak_with_resets entries completed_streaks today
  { has_seven_day_streak := decide (0 < completed_streaks.length)
  , completed_streaks_count := completed_streaks.length
  , completed_streaks := completed_streaks
  , latest_completed_streak := completed_streaks.getLast?
  , current_streak := current_streak
  , needed_for_seven := max 0 (7 - (current_streak : Int)) }

/-!
### Raw embedding with date parsing

`RawDiaryEntry.date` carries the outcome of `datetime.strptime(e.date,
"%Y-%m-%d")` on the stored date string: `some d` when the string parses to
day number `d`, `none` when it does not (in which case Python raises
`ValueError`).  Every function below runs in `Except String`, erroring where
the Python code would raise.  Window dictionaries produced by the search
carry dates that were already parsed successfully during the scan, so they
are stored as day numbers directly.  The sort key is the raw date string;
on the unparseable strings its exact order is immaterial to the properties
proved here, and `none` is ordered first.
-/

/-- A diary entry whose date field may fail to parse. -/
structure RawDiaryEntry where
  date : Option Int
  actualText : Option String
deriving DecidableEq

/-- Validity test on raw entries (identical to `isValidEntry`; the date is
not consulted). -/
def isValidRaw (e : RawDiaryEntry) : Bool :=
  match e.actualText with
  | none => false
  | some s => s.data.any (fun c => !c.isWhitespace)

/-- `datetime.strptime(_, "%Y-%m-%d")`: a parseable string yields its day
number, an unparseable one raises `ValueError`. -/
def parseDate (d : Option Int) : Except String Int :=
  match d with
  | some n => Except.ok n
  | none => Except.error "time data does not match format Y-m-d"

/-- Stand-in for lexicographic comparison of the raw date strings; `none`
(unparseable) sorts first, parseable strings sort by day number. -/
def rawDateLe (a b : Option Int) : Bool :=
  match a, b with
  | none, _ => true
  | some _, none => false
  | some x, some y => decide (x ≤ y)

/-- Stable ascending insertion on raw entries. -/
def insertRawAsc (e : RawDiaryEntry) : List RawDiaryEntry → List RawDiaryEntry
  | [] => [e]
  | x :: xs => if rawDateLe e.date x.date then e :: x :: xs else x :: insertRawAsc e xs

/-- Stable ascending sort on raw entries. -/
def sortRawAsc : List RawDiaryEntry → List RawDiaryEntry
  | [] => []
  | x :: xs => insertRawAsc x (sortRawAsc xs)

/-- Stable descending insertion on raw entries. -/
def insertRawDesc (e : RawDiaryEntry) : List RawDiaryEntry → List RawDiaryEntry
  | [] => [e]
  | x :: xs => if rawDateLe x.date e.date then e :: x :: xs else x :: insertRawDesc e xs

/-- Stable descending sort on raw entries. -/
def sortRawDesc : List RawDiaryEntry → List RawDiaryEntry
  | [] => []
  | x :: xs => insertRawDesc x (sortRawDesc xs)

/-- Inner loop of the window search on raw entries: at each step (while fewer
than 7 entries are collected) the last collected entry's date and the next
entry's date are parsed — either parse may raise — and the next entry is kept
if it is exactly one day later. -/
def extendRunE (count : Nat) (last : RawDiaryEntry) :
    List RawDiaryEntry → Except String (List RawDiaryEntry)
  | [] => Except.ok []
  | next :: rest =>
    if 7 ≤ count then Except.ok []
    else
      match parseDate last.date with
      | Except.error m => Except.error m
      | Except.ok cd =>
        match parseDate next.date with
        | Except.error m => Except.error m
        | Except.ok nd =>
          if nd - cd = 1 then
            match extendRunE (count + 1) next rest with
            | Except.error m => Except.error m
            | Except.ok tail => Except.ok (next :: tail)
          else Except.ok []

/-- Outer loop of the window search on raw entries.  The window's dates are
re-extracted by parsing the collected entries' dates; on the success path
every one of them was already parsed during the chain walk, so these parses
cannot fail where the Python code would not have raised. -/
def scanStartsE (acc : List StreakWindow) :
    List RawDiaryEntry → Except String (List StreakWindow)
  | [] => Except.ok acc
  | e :: rest =>
    if rest.length < 6 then Except.ok acc
    else
      match extendRunE 1 e rest with
      | Except.error m => Except.error m
      | Except.ok tail =>
        let consecutive_days := (e :: tail).take 7
        if 7 ≤ consecutive_days.length then
          match consecutive_days.mapM (fun x => parseDate x.date) with
          | Except.error m => Except.error m
          | Except.ok ds =>
            let w := mkWindow ds
            let acc' :=
              if acc.any (fun ex => ex.start_date == w.start_date) then acc else acc ++ [w]
            scanStartsE acc' rest
        else scanStartsE acc rest

/-- `_find_all_seven_day_streaks` on raw entries. -/
def find_all_seven_day_streaksE (entries : List RawDiaryEntry)
    (user_registration_date : Int) : Except String (List StreakWindow) :=
  if entries = [] then Except.ok []
  else
    let valid_entries := entries.filter isValidRaw
    if valid_entries = [] then Except.ok []
    else
      let sortedEntries := sortRawAsc valid_entries
      if sortedEntries.length < 7 then Except.ok []
      else scanStartsE [] sortedEntries

/-- The `current_entries` filter loop on raw entries: every valid entry's
date is parsed (and a failing parse raises) before the comparison with
`last_completed_date` is made. -/
def filterCurrentE (lcd : Option Int) :
    List RawDiaryEntry → Except String (List RawDiaryEntry)
  | [] => Except.ok []
  | e :: rest =>
    match parseDate e.date with
    | Except.error m => Except.error m
    | Except.ok d =>
      match filterCurrentE lcd rest with
      | Except.error m => Except.error m
      | Except.ok tail =>
        match lcd with
        | none => Except.ok (e :: tail)
        | some m => if m < d then Except.ok (e :: tail) else Except.ok tail

/-- The counting loop on raw entries (each walked entry's date is parsed). -/
def countConsecutiveE (prev : Int) : List RawDiaryEntry → Except String Nat
  | [] => Except.ok 0
  | e :: rest =>
    match parseDate e.date with
    | Except.error m => Except.error m
    | Except.ok d =>
      if prev - d = 1 then
        match countConsecutiveE d rest with
        | Except.error m => Except.error m
        | Except.ok n => Except.ok (n + 1)
      else Except.ok 0

/-- `_calculate_current_streak_with_resets` on raw entries. -/
def calculate_current_streak_with_resetsE (entries : List RawDiaryEntry)
    (completed_streaks : List StreakWindow) (today : Int) : Except String Nat :=
  if entries = [] then Except.ok 0
  else if entries.filter isValidRaw = [] then Except.ok 0
  else
    match filterCurrentE (lastCompletedDate completed_streaks)
        (sortRawDesc (entries.filter isValidRaw)) with
    | Except.error m => Except.error m
    | Except.ok current_entries =>
      match current_entries with
      | [] => Except.ok 0
      | latest :: rest =>
        match parseDate latest.date with
        | Except.error m => Except.error m
        | Except.ok latestD =>
          if 1 < today - latestD then Except.ok 0
          else
            match countConsecutiveE latestD rest with
            | Except.error m => Except.error m
            | Except.ok n => Except.ok (1 + n)

/-- The `check_streak` pipeline on raw entries: a `ValueError` raised in
either phase propagates out of the handler. -/
def check_streakE (entries : List RawDiaryEntry)
    (user_registration_date : Int) (today : Int) : Except String StreakState :=
  match find_all_seven_day_streaksE entries user_registration_date with
  | Except.error m => Except.error m
  | Except.ok completed_streaks =>
    match calculate_current_streak_with_resetsE entries completed_streaks today with
    | Except.error m => Except.error m
    | Except.ok current_streak =>
      Except.ok
        { has_seven_day_streak := decide (0 < completed_streaks.length)
        , completed_streaks_count := completed_streaks.length
        , completed_streaks := completed_streaks
        , latest_completed_streak := completed_streaks.getLast?
        , current_streak := current_streak
        , needed_for_seven := max 0 (7 - (current_streak : Int)) }

/-!
### Concrete inputs for scenarios

Day numbers are relative to 2025-01-01, i.e. 2025-01-01 ↦ 0, 2025-01-02 ↦ 1,
…, 2025-01-14 ↦ 13.
-/

/-- A valid entry (non-blank text) on day `d`. -/
def entryOn (d : Int) : DiaryEntryResponse :=
  { date := d, actualText := some "x" }

/-- Valid entries on the 14 consecutive dates 2025-01-01 .. 2025-01-14. -/
def fourteenDays : List DiaryEntryResponse :=
  [entryOn 0, entryOn 1, entryOn 2, entryOn 3, entryOn 4, entryOn 5, entryOn 6,
   entryOn 7, entryOn 8, entryOn 9, entryOn 10, entryOn 11, entryOn 12, entryOn 13]

/-- Valid entries on the 7 consecutive dates 2025-01-01 .. 2025-01-07. -/
def sevenDays : List DiaryEntryResponse :=
  [entryOn 0, entryOn 1, entryOn 2, entryOn 3, entryOn 4, entryOn 5, entryOn 6]

/-!
### Helper lemmas
-/

lemma length_insertByDateAsc (e : DiaryEntryResponse) (l : List DiaryEntryResponse) :
    (insertByDateAsc e l).length = l.length + 1 := by
  induction l with
  | nil => rfl
  | cons x xs ih =>
    unfold insertByDateAsc
    split
    · simp
    · simp [ih]

lemma length_sortByDateAsc (l : List DiaryEntryResponse) :
    (sortByDateAsc l).length = l.length := by
  induction l with
  | nil => rfl
  | cons x xs ih => simp [sortByDateAsc, length_insertByDateAsc, ih]

lemma mem_insertByDateDesc {x e : DiaryEntryResponse} {l : List DiaryEntryResponse} :
    x ∈ insertByDateDesc e l ↔ x = e ∨ x ∈ l := by
  induction l with
  | nil => simp [insertByDateDesc]
  | cons y ys ih =>
    unfold insertByDateDesc
    split
    · simp
    · simp [ih]
      tauto

lemma mem_sortByDateDesc {x : DiaryEntryResponse} {l : List DiaryEntryResponse} :
    x ∈ sortByDateDesc l ↔ x ∈ l := by
  induction l with
  | nil => simp [sortByDateDesc]
  | cons y ys ih =>
    simp [sortByDateDesc, mem_insertByDateDesc, ih]

lemma le_maxByCompletedAt : ∀ (ws : List StreakWindow) (w x : StreakWindow),
    x ∈ w :: ws → x.completed_at ≤ (maxByCompletedAt w ws).completed_at
  | [], w, x, hx => by
    have : x = w := by simpa using hx
    subst this
    simp [maxByCompletedAt]
  | y :: ys, w, x, hx => by
    have hstep : maxByCompletedAt w (y :: ys) =
        maxByCompletedAt (if w.completed_at < y.completed_at then y else w) ys := rfl
    have hwb : w.completed_at ≤
        (if w.completed_at < y.completed_at then y else w).completed_at := by
      split <;> omega
    have hyb : y.completed_at ≤
        (if w.completed_at < y.completed_at then y else w).completed_at := by
      split <;> omega
    have hbb := le_maxByCompletedAt ys (if w.completed_at < y.completed_at then y else w)
      (if w.completed_at < y.completed_at then y else w) (by simp)
    rw [hstep]
    rcases (by simpa using hx : x = w ∨ x = y ∨ x ∈ ys) with h | h | h
    · subst h; exact le_trans hwb hbb
    · subst h; exact le_trans hyb hbb
    · exact le_maxByCompletedAt ys _ x (List.mem_cons_of_mem _ h)

lemma currentEntriesOf_nil (c : List StreakWindow) : currentEntriesOf [] c = [] := rfl

lemma currentEntriesOf_eq_nil_of_valid_nil (entries : List DiaryEntryResponse)
    (c : List StreakWindow) (h : entries.filter isValidEntry = []) :
    currentEntriesOf entries c = [] := by
  unfold currentEntriesOf
  rw [h]
  rfl

lemma calc_streak_eq_nil (entries : List DiaryEntryResponse) (c : List StreakWindow)
    (today : Int) (h : currentEntriesOf entries c = []) :
    calculate_current_streak_with_resets entries c today = 0 := by
  unfold calculate_current_streak_with_resets
  by_cases h1 : entries = []
  · rw [if_pos h1]
  · by_cases h2 : entries.filter isValidEntry = []
    · rw [if_neg h1, if_pos h2]
    · rw [if_neg h1, if_neg h2, h]

lemma calc_streak_eq_cons (entries : List DiaryEntryResponse) (c : List StreakWindow)
    (today : Int) (latest : DiaryEntryResponse) (rest : List DiaryEntryResponse)
    (h : currentEntriesOf entries c = latest :: rest) :
    calculate_current_streak_with_resets entries c today =
      if 1 < today - latest.date then 0 else 1 + countConsecutive latest.date rest := by
  unfold calculate_current_streak_with_resets
  by_cases h1 : entries = []
  · subst h1
    rw [currentEntriesOf_nil] at h
    cases h
  · by_cases h2 : entries.filter isValidEntry = []
    · rw [currentEntriesOf_eq_nil_of_valid_nil entries c h2] at h
      cases h
    · rw [if_neg h1, if_neg h2, h]

/-!
### Claim theorems
-/

/-- C9: the user's registration timestamp has no effect on the
completed-streak result: the registration-date floor is disabled (commented
out), so `find_all_seven_day_streaks` returns the same windows for any two
registration timestamps. -/
theorem registration_date_irrelevant (entries : List DiaryEntryResponse) (r1 r2 : Int) :
    find_all_seven_day_streaks entries r1 = find_all_seven_day_streaks entries r2 := rfl

/-- C4: in every `check_streak` result, `needed_for_seven` equals
`max 0 (7 - current_streak)` and `has_seven_day_streak` holds exactly when
`completed_streaks` is non-empty. -/
theorem check_streak_needed_and_flag (entries : List DiaryEntryResponse) (r today : Int) :
    (check_streak entries r today).needed_for_seven =
      max 0 (7 - ((check_streak entries r today).current_streak : Int)) ∧
    ((check_streak entries r today).has_seven_day_streak = true ↔
      (check_streak entries r today).completed_streaks ≠ []) := by
  constructor
  · rfl
  · simp [check_streak, List.length_pos]

/-- C5: when fewer than 7 valid entries (entries with non-blank `actualText`)
are present, the completed-streak search returns the empty list. -/
theorem few_valid_entries_no_streaks (entries : List DiaryEntryResponse) (r : Int)
    (h : (entries.filter isValidEntry).length < 7) :
    find_all_seven_day_streaks entries r = [] := by
  unfold find_all_seven_day_streaks
  by_cases h1 : entries = []
  · rw [if_pos h1]
  · rw [if_neg h1]
    by_cases h2 : entries.filter isValidEntry = []
    · rw [if_pos h2]
    · rw [if_neg h2, if_pos (by rw [length_sortByDateAsc]; exact h)]

/-- Witness for C5 at a concrete input: a single valid entry. -/
theorem few_valid_entries_no_streaks_witness :
    ((([entryOn 0] : List DiaryEntryResponse).filter isValidEntry).length < 7) ∧
      find_all_seven_day_streaks [entryOn 0] 0 = [] :=
  ⟨by decide, few_valid_entries_no_streaks [entryOn 0] 0 (by decide)⟩

/-- C6: when the most recent valid entry after the last completed window is
more than one whole day before today, the current streak is 0. -/
theorem stale_latest_entry_zero_streak (entries : List DiaryEntryResponse)
    (c : List StreakWindow) (today : Int) (latest : DiaryEntryResponse)
    (rest : List DiaryEntryResponse)
    (h : currentEntriesOf entries c = latest :: rest)
    (hstale : 1 < today - latest.date) :
    calculate_current_streak_with_resets entries c today = 0 := by
  rw [calc_streak_eq_cons entries c today latest rest h, if_pos hstale]

/-- Witness for C6: most recent valid entry on 2025-01-01 (day 0), today
2025-01-10 (day 9); the current streak is 0. -/
theorem stale_latest_entry_zero_streak_witness :
    currentEntriesOf [entryOn 0] [] = [entryOn 0] ∧
    (1 : Int) < 9 - (entryOn 0).date ∧
    calculate_current_streak_with_resets [entryOn 0] [] 9 = 0 :=
  ⟨by decide, by decide,
    stale_latest_entry_zero_streak [entryOn 0] [] 9 (entryOn 0) [] (by decide) (by decide)⟩

/-- C10: a future-dated entry is accepted as active: when the most recent
valid entry after the last completed window is dated on or after today minus
one day (including dates in the future, where the difference is negative),
the staleness check does not trigger and the current streak is at least 1. -/
theorem future_entry_counts (entries : List DiaryEntryResponse)
    (c : List StreakWindow) (today : Int) (latest : DiaryEntryResponse)
    (rest : List DiaryEntryResponse)
    (h : currentEntriesOf entries c = latest :: rest)
    (hfresh : today - latest.date ≤ 1) :
    1 ≤ calculate_current_streak_with_resets entries c today := by
  rw [calc_streak_eq_cons entries c today latest rest h, if_neg (by omega)]
  omega

/-- Witness for C10: entry dated 5 days after today: the streak is ≥ 1. -/
theorem future_entry_counts_witness :
    currentEntriesOf [entryOn 5] [] = [entryOn 5] ∧
    (0 : Int) - (entryOn 5).date ≤ 1 ∧
    1 ≤ calculate_current_streak_with_resets [entryOn 5] [] 0 :=
  ⟨by decide, by decide,
    future_entry_counts [entryOn 5] [] 0 (entryOn 5) [] (by decide) (by decide)⟩

/-- C7 (amended: the staleness check of the source intervenes between the
empty-check and the seeded count): the computation counts only valid entries
dated strictly after the `completed_at` of the most recent completed window
(all valid entries when none is completed); with no remaining entry the
streak is 0; otherwise, when the latest remaining entry is within one day of
today, the count is 1 for the latest entry plus one per entry exactly one day
before the previously counted date, stopping at the first gap — and when the
latest remaining entry is staler than that, the streak is 0. -/
theorem current_streak_description (entries : List DiaryEntryResponse)
    (completed : List StreakWindow) (today : Int) :
    (∀ x ∈ currentEntriesOf entries completed,
        isValidEntry x = true ∧ x ∈ entries ∧ ∀ w ∈ completed, w.completed_at < x.date) ∧
    (completed = [] →
        currentEntriesOf entries completed = sortByDateDesc (entries.filter isValidEntry)) ∧
    (match currentEntriesOf entries completed with
     | [] => calculate_current_streak_with_resets entries completed today = 0
     | latest :: rest =>
        calculate_current_streak_with_resets entries completed today =
          if 1 < today - latest.date then 0 else 1 + countConsecutive latest.date rest) := by
  refine ⟨?_, ?_, ?_⟩
  · intro x hx
    unfold currentEntriesOf at hx
    rw [List.mem_filter] at hx
    obtain ⟨hmem, hp⟩ := hx
    rw [mem_sortByDateDesc, List.mem_filter] at hmem
    refine ⟨hmem.2, hmem.1, ?_⟩
    intro w hw
    cases hc : completed with
    | nil => subst hc; cases hw
    | cons w0 ws =>
      subst hc
      rw [show lastCompletedDate (w0 :: ws) = some (maxByCompletedAt w0 ws).completed_at
        from rfl] at hp
      have hlt : (maxByCompletedAt w0 ws).completed_at < x.date := by
        simpa using hp
      exact lt_of_le_of_lt (le_maxByCompletedAt ws w0 w hw) hlt
  · intro h
    subst h
    unfold currentEntriesOf
    rw [show lastCompletedDate [] = none from rfl]
    exact List.filter_true _
  · cases h : currentEntriesOf entries completed with
    | nil => exact calc_streak_eq_nil entries completed today h
    | cons latest rest => exact calc_streak_eq_cons entries completed today latest rest h

/-- Witness for C7's amended description, at a single valid entry with no
completed window. -/
theorem current_streak_description_witness :
    isValidEntry (entryOn 0) = true ∧
    entryOn 0 ∈ ([entryOn 0] : List DiaryEntryResponse) ∧
    ∀ w ∈ ([] : List StreakWindow), w.completed_at < (entryOn 0).date :=
  (current_streak_description [entryOn 0] [] 5).1 (entryOn 0) (by decide)

/-- C7 counterexample: the claim as stated (no staleness proviso: any
non-empty remainder yields a count of at least 1) fails on a single valid
entry dated 2025-01-01 evaluated with today = 2025-01-10, where the code
returns 0. -/
theorem current_streak_description_cex :
    ¬ (∀ (entries : List DiaryEntryResponse) (completed : List StreakWindow) (today : Int),
        match currentEntriesOf entries completed with
        | [] => calculate_current_streak_with_resets entries completed today = 0
        | latest :: rest =>
            calculate_current_streak_with_resets entries completed today =
              1 + countConsecutive latest.date rest) := by
  intro h
  have h3 : (0 : Nat) = 1 + countConsecutive (0 : Int) [] := h [entryOn 0] [] 9
  exact absurd h3 (by decide)

/-!
### Window-search structure lemmas (for C1 and C3)
-/

lemma mem_pushWindow {w' w : StreakWindow} {acc : List StreakWindow}
    (h : w' ∈ pushWindow acc w) : w' ∈ acc ∨ w' = w := by
  unfold pushWindow at h
  split at h
  · exact Or.inl h
  · rcases List.mem_append.mp h with h | h
    · exact Or.inl h
    · exact Or.inr (by simpa using h)

lemma pairwise_pushWindow {acc : List StreakWindow} {w : StreakWindow}
    (h : acc.Pairwise (fun a b => a.start_date ≠ b.start_date)) :
    (pushWindow acc w).Pairwise (fun a b => a.start_date ≠ b.start_date) := by
  unfold pushWindow
  split
  · exact h
  next hdup =>
    rw [List.pairwise_append]
    refine ⟨h, List.pairwise_singleton _ _, ?_⟩
    intro a ha b hb
    have hb' : b = w := by simpa using hb
    subst hb'
    intro heq
    exact hdup (List.any_eq_true.mpr ⟨a, ha, by simp [heq]⟩)

lemma chain_takeChain : ∀ (prev : DiaryEntryResponse) (l : List DiaryEntryResponse),
    List.Chain' (fun a b => b.date = a.date + 1) (prev :: takeChain prev l)
  | _, [] => List.chain'_singleton _
  | prev, next :: rest => by
    unfold takeChain
    split
    next hd =>
      exact List.chain'_cons.mpr ⟨by omega, chain_takeChain next rest⟩
    · exact List.chain'_singleton _

lemma chain_date_take : ∀ (l : List DiaryEntryResponse) (n : Nat),
    List.Chain' (fun a b => b.date = a.date + 1) l →
    List.Chain' (fun a b => b.date = a.date + 1) (l.take n)
  | [], _, _ => by simp
  | _ :: _, 0, _ => by simp
  | [a], n + 1, _ => by simp
  | a :: b :: t, n + 1, h => by
    rw [List.take_succ_cons]
    cases n with
    | zero => simp
    | succ k =>
      exact List.chain'_cons.mpr
        ⟨(List.chain'_cons.mp h).1, chain_date_take (b :: t) (k + 1) (List.chain'_cons.mp h).2⟩

lemma scanStarts_pairwise : ∀ (l : List DiaryEntryResponse) (acc : List StreakWindow),
    acc.Pairwise (fun a b => a.start_date ≠ b.start_date) →
    (scanStarts acc l).Pairwise (fun a b => a.start_date ≠ b.start_date) := by
  intro l
  induction l with
  | nil => intro acc h; simpa [scanStarts] using h
  | cons e rest ih =>
    intro acc h
    unfold scanStarts
    split
    · exact h
    · apply ih
      split
      · exact pairwise_pushWindow h
      · exact h

lemma scanStarts_mem : ∀ (l : List DiaryEntryResponse) (acc : List StreakWindow)
    (w : StreakWindow), w ∈ scanStarts acc l →
    w ∈ acc ∨ ∃ ds : List Int, w = mkWindow ds ∧ ds.length = 7 ∧
      List.Chain' (fun a b => b = a + 1) ds := by
  intro l
  induction l with
  | nil => intro acc w hw; exact Or.inl (by simpa [scanStarts] using hw)
  | cons e rest ih =>
    intro acc w hw
    unfold scanStarts at hw
    split at hw
    · exact Or.inl hw
    · rcases ih _ w hw with h2 | h2
      · split at h2
        next hlen =>
          rcases mem_pushWindow h2 with h3 | h3
          · exact Or.inl h3
          · right
            refine ⟨((e :: takeChain e rest).take 7).map (fun x => x.date), h3, ?_, ?_⟩
            · have hle := List.length_take 7 (e :: takeChain e rest)
              simp only [List.length_map]
              omega
            · exact (List.chain'_map _).mpr
                (chain_date_take (e :: takeChain e rest) 7 (chain_takeChain e rest))
        · exact Or.inl h2
      · exact Or.inr h2

lemma getD_zero_eq_headD (l : List Int) (d : Int) : l.getD 0 d = l.headD d := by
  cases l <;> rfl

lemma chain_succ_getD : ∀ (l : List Int), List.Chain' (fun a b => b = a + 1) l →
    ∀ i : Nat, i + 1 < l.length → l.getD (i + 1) 0 = l.getD i 0 + 1 := by
  intro l
  induction l with
  | nil => intro _ i hi; simp at hi
  | cons a t ih =>
    intro h i hi
    cases i with
    | zero =>
      cases t with
      | nil => simp at hi
      | cons b t' =>
        have hR : b = a + 1 := (List.chain'_cons.mp h).1
        simp [hR]
    | succ i' =>
      simp only [List.getD_cons_succ]
      exact ih h.tail i' (by simpa using hi)

lemma chain_succ_getD_zero (l : List Int) (h : List.Chain' (fun a b => b = a + 1) l) :
    ∀ j : Nat, j < l.length → l.getD j 0 = l.getD 0 0 + j := by
  intro j
  induction j with
  | zero => intro _; simp
  | succ j' ih =>
    intro hj
    rw [chain_succ_getD l h j' hj, ih (by omega)]
    push_cast
    ring

/-- C1 counterexample: on 14 consecutive valid days the returned windows are
NOT pairwise non-overlapping in date range — the scan records a window at
every start index, so adjacent windows share 6 dates. -/
theorem find_streaks_overlap_cex :
    ¬ List.Pairwise (fun a b => ∀ d ∈ a.dates, d ∉ b.dates)
      (find_all_seven_day_streaks fourteenDays 0) := by decide

/-- C1 (amended: only the duplicate check on `start_date` is enforced, not
date-range disjointness): the windows returned by the completed-streak search
are pairwise distinct in `start_date`. -/
theorem find_streaks_pairwise_start_date (entries : List DiaryEntryResponse) (r : Int) :
    (find_all_seven_day_streaks entries r).Pairwise
      (fun a b => a.start_date ≠ b.start_date) := by
  unfold find_all_seven_day_streaks
  by_cases h1 : entries = []
  · rw [if_pos h1]; exact List.Pairwise.nil
  rw [if_neg h1]
  by_cases h2 : entries.filter isValidEntry = []
  · rw [if_pos h2]; exact List.Pairwise.nil
  rw [if_neg h2]
  by_cases h3 : (sortByDateAsc (entries.filter isValidEntry)).length < 7
  · rw [if_pos h3]; exact List.Pairwise.nil
  · rw [if_neg h3]
    exact scanStarts_pairwise _ [] List.Pairwise.nil

/-- C2 counterexample: valid entries on exactly 2025-01-01 .. 2025-01-14
(days 0..13) yield 8 windows, not the claimed 2. -/
theorem fourteen_days_not_two_streaks :
    (find_all_seven_day_streaks fourteenDays 0).length = 8 ∧
    (find_all_seven_day_streaks fourteenDays 0).length ≠ 2 := by decide

/-- C2 (amended: the scan advances one index at a time, so a 14-day run
yields one window per start index): on 2025-01-01 .. 2025-01-14 the search
returns exactly the 8 overlapping windows starting 2025-01-01 .. 2025-01-08. -/
theorem fourteen_days_eight_streaks :
    find_all_seven_day_streaks fourteenDays 0 =
      [mkWindow [0, 1, 2, 3, 4, 5, 6],
       mkWindow [1, 2, 3, 4, 5, 6, 7],
       mkWindow [2, 3, 4, 5, 6, 7, 8],
       mkWindow [3, 4, 5, 6, 7, 8, 9],
       mkWindow [4, 5, 6, 7, 8, 9, 10],
       mkWindow [5, 6, 7, 8, 9, 10, 11],
       mkWindow [6, 7, 8, 9, 10, 11, 12],
       mkWindow [7, 8, 9, 10, 11, 12, 13]] := by decide

/-- C3: every returned window has exactly 7 dates, consecutive dates
(`dates[i+1] = dates[i] + 1`), `end_date = start_date + 6`, and
`completed_at = end_date`. -/
theorem streak_window_shape (entries : List DiaryEntryResponse) (r : Int)
    (w : StreakWindow) (hw : w ∈ find_all_seven_day_streaks entries r) :
    w.dates.length = 7 ∧
    (∀ i : Nat, i + 1 < w.dates.length → w.dates.getD (i + 1) 0 = w.dates.getD i 0 + 1) ∧
    w.end_date = w.start_date + 6 ∧
    w.completed_at = w.end_date := by
  have hW : w ∈ ([] : List StreakWindow) ∨ ∃ ds : List Int, w = mkWindow ds ∧
      ds.length = 7 ∧ List.Chain' (fun a b => b = a + 1) ds := by
    unfold find_all_seven_day_streaks at hw
    by_cases h1 : entries = []
    · rw [if_pos h1] at hw; cases hw
    rw [if_neg h1] at hw
    by_cases h2 : entries.filter isValidEntry = []
    · rw [if_pos h2] at hw; cases hw
    rw [if_neg h2] at hw
    by_cases h3 : (sortByDateAsc (entries.filter isValidEntry)).length < 7
    · rw [if_pos h3] at hw; cases hw
    · rw [if_neg h3] at hw
      exact scanStarts_mem _ [] w hw
  rcases hW with h | ⟨ds, rfl, hlen, hchain⟩
  · cases h
  · refine ⟨hlen, ?_, ?_, rfl⟩
    · intro i hi
      exact chain_succ_getD ds hchain i hi
    · show ds.getD 6 0 = ds.headD 0 + 6
      rw [← getD_zero_eq_headD]
      have h6 := chain_succ_getD_zero ds hchain 6 (by omega)
      simpa using h6

/-- Witness for C3 on the 7-day scenario input. -/
theorem streak_window_shape_witness :
    mkWindow [0, 1, 2, 3, 4, 5, 6] ∈ find_all_seven_day_streaks sevenDays 0 ∧
    ((mkWindow [0, 1, 2, 3, 4, 5, 6]).dates.length = 7 ∧
     (∀ i : Nat, i + 1 < (mkWindow [0, 1, 2, 3, 4, 5, 6]).dates.length →
        (mkWindow [0, 1, 2, 3, 4, 5, 6]).dates.getD (i + 1) 0 =
          (mkWindow [0, 1, 2, 3, 4, 5, 6]).dates.getD i 0 + 1) ∧
     (mkWindow [0, 1, 2, 3, 4, 5, 6]).end_date = (mkWindow [0, 1, 2, 3, 4, 5, 6]).start_date + 6 ∧
     (mkWindow [0, 1, 2, 3, 4, 5, 6]).completed_at = (mkWindow [0, 1, 2, 3, 4, 5, 6]).end_date) :=
  ⟨by decide, streak_window_shape sevenDays 0 (mkWindow [0, 1, 2, 3, 4, 5, 6]) (by decide)⟩

/-!
### Error propagation on malformed dates (C8)
-/

lemma mem_insertRawDesc {x e : RawDiaryEntry} {l : List RawDiaryEntry} :
    x ∈ insertRawDesc e l ↔ x = e ∨ x ∈ l := by
  induction l with
  | nil => simp [insertRawDesc]
  | cons y ys ih =>
    unfold insertRawDesc
    split
    · simp
    · simp [ih]
      tauto

lemma mem_sortRawDesc {x : RawDiaryEntry} {l : List RawDiaryEntry} :
    x ∈ sortRawDesc l ↔ x ∈ l := by
  induction l with
  | nil => simp [sortRawDesc]
  | cons y ys ih => simp [sortRawDesc, mem_insertRawDesc, ih]

lemma filterCurrentE_error : ∀ (lcd : Option Int) (l : List RawDiaryEntry),
    (∃ x ∈ l, x.date = none) → ∃ m, filterCurrentE lcd l = Except.error m := by
  intro lcd l
  induction l with
  | nil => rintro ⟨x, hx, _⟩; cases hx
  | cons e rest ih =>
    rintro ⟨x, hx, hxd⟩
    cases hpe : parseDate e.date with
    | error m => exact ⟨m, by unfold filterCurrentE; rw [hpe]⟩
    | ok d =>
      have hxr : x ∈ rest := by
        rcases List.mem_cons.mp hx with h | h
        · subst h
          rw [hxd] at hpe
          simp [parseDate] at hpe
        · exact h
      obtain ⟨m, hm⟩ := ih ⟨x, hxr, hxd⟩
      refine ⟨m, ?_⟩
      unfold filterCurrentE
      rw [hpe, hm]

lemma calcE_error (entries : List RawDiaryEntry) (completed : List StreakWindow)
    (today : Int) (h : ∃ e ∈ entries, isValidRaw e = true ∧ e.date = none) :
    ∃ m, calculate_current_streak_with_resetsE entries completed today = Except.error m := by
  obtain ⟨e, he, hv, hd⟩ := h
  have h1 : entries ≠ [] := by rintro rfl; cases he
  have hev : e ∈ entries.filter isValidRaw := List.mem_filter.mpr ⟨he, hv⟩
  have h2 : entries.filter isValidRaw ≠ [] := by
    intro hh
    rw [hh] at hev
    cases hev
  have hes : e ∈ sortRawDesc (entries.filter isValidRaw) := mem_sortRawDesc.mpr hev
  obtain ⟨m, hm⟩ := filterCurrentE_error (lastCompletedDate completed) _ ⟨e, hes, hd⟩
  refine ⟨m, ?_⟩
  unfold calculate_current_streak_with_resetsE
  rw [if_neg h1, if_neg h2, hm]

/-- C8 (amended: entries whose `actualText` is blank are filtered out before
any date is parsed, so only malformed dates on VALID entries are detected):
for every input containing a valid entry (non-blank `actualText`) whose date
string does not parse, the `check_streak` pipeline fails with an error rather
than silently skipping the entry. -/
theorem malformed_valid_entry_errors (entries : List RawDiaryEntry) (r today : Int)
    (h : ∃ e ∈ entries, isValidRaw e = true ∧ e.date = none) :
    ∃ m, check_streakE entries r today = Except.error m := by
  cases hf : find_all_seven_day_streaksE entries r with
  | error m => exact ⟨m, by simp only [check_streakE, hf]⟩
  | ok completed =>
    obtain ⟨m, hm⟩ := calcE_error entries completed today h
    refine ⟨m, ?_⟩
    simp only [check_streakE, hf, hm]

/-- Witness for the amended C8: a single valid entry with an unparseable
date makes the pipeline error. -/
theorem malformed_valid_entry_errors_witness :
    (∃ e ∈ ([⟨none, some "x"⟩] : List RawDiaryEntry), isValidRaw e = true ∧ e.date = none) ∧
    ∃ m, check_streakE [⟨none, some "x"⟩] 0 0 = Except.error m :=
  ⟨⟨⟨none, some "x"⟩, by decide, by decide, rfl⟩,
   malformed_valid_entry_errors [⟨none, some "x"⟩] 0 0
     ⟨⟨none, some "x"⟩, by decide, by decide, rfl⟩⟩

/-- C8 counterexample: an entry with an unparseable date but blank
`actualText` is filtered out before parsing, and the engine returns a normal
result instead of failing — refuting the claim for arbitrary entries. -/
theorem malformed_date_not_always_error :
    ¬ (∀ (entries : List RawDiaryEntry) (r today : Int),
        (∃ e ∈ entries, e.date = none) →
        ∃ m, check_streakE entries r today = Except.error m) := by
  intro h
  obtain ⟨m, hm⟩ := h [⟨none, some ""⟩] 0 0 ⟨⟨none, some ""⟩, by decide, rfl⟩
  rw [show check_streakE [⟨none, some ""⟩] 0 0 = Except.ok
      { has_seven_day_streak := false, completed_streaks_count := 0,
        completed_streaks := [], latest_completed_streak := none,
        current_streak := 0, needed_for_seven := 7 } from rfl] at hm
  cases hm

end Diary
